import Mathlib

/-!
Shallow embedding of `fetch-github-titles` (samprintz/fetch-github-titles).

The repository holds three ES-module script variants of the same tool:
`src/fetch-issue-titles.js` (function-based, writes an output file) and two
class-based variants inside `src/unnamed/part_000` (the first writes a file,
the second prints to stdout).  The fetch algorithms are line-for-line
identical across the variants, so they are embedded once:

- `fetchIssueTitles`  — the REST fetcher (`fetchIssueTitles` in
  `fetch-issue-titles.js`, `RESTTitleFetcher.fetch` in the variants):
  computes `totalPages = Math.ceil(totalIssues / issuesPerPage)`, dispatches
  all pages `1..totalPages` via `Promise.allSettled`, collects fulfilled
  pages and logs rejected ones.
- `fetchItemTitles`   — the GraphQL cursor fetcher (`fetchItemTitles`,
  `GraphQLTitleFetcher.fetch`): a sequential `while (hasNextPage)` loop.
  The network is modelled as the finite list of per-request responses the
  provider would return, in request order (the cursor threading is implicit
  in that sequencing); `none` means the script of responses was exhausted
  while the loop still wanted another page.
- `fetchRepoStats`    — the aggregate count query (`fetchRepoStats`,
  `ItemCountFetcher.fetch`): on failure logs and returns JavaScript
  `undefined`, modelled as `none`.
- `fetchTitles` / `runScript` / `runProgram` — the top level of
  `fetch-issue-titles.js`, producing the observable event trace (network
  requests, file operations, console output) and the process outcome.
- `titlesClassVariant` — the top-level concatenation of the class-based
  variants (`[...rest.fetch(totalIssues), ...graphql.fetch(discussions)]`).
-/

/-- A fetched item: the `number`/`title` pair taken from a provider
response (`issue.number`, `issue.title` / `edge.node.number`,
`edge.node.title`). -/
structure Issue where
  number : Nat
  title : String
  deriving Repr, DecidableEq

/-- The exported line for one item: `` `${number},${title}` ``. -/
def issueLine (i : Issue) : String :=
  toString i.number ++ "," ++ i.title

/-- `const issuesPerPage = 100;` (REST page size). -/
def issuesPerPage : Nat := 100

/-- `const perPage = 100;` (GraphQL page size). -/
def perPage : Nat := 100

/-- `Math.ceil(n / p)` for the natural inputs the scripts use
(`totalIssues / issuesPerPage`, `totalCount / perPage`). -/
def mathCeilDiv (n p : Nat) : Nat :=
  (n + p - 1) / p

/-- One element of the array `Promise.allSettled` resolves to:
either `{status: "fulfilled", value}` or `{status: "rejected", reason}`. -/
inductive SettledResult (α : Type) where
  | fulfilled (value : α)
  | rejected (reason : String)
  deriving Repr, DecidableEq

/-- The page request handed to `octokit.issues.listForRepo`
(only the pagination-relevant fields `page` and `per_page`). -/
structure PageRequest where
  page : Nat
  per_page : Nat
  deriving Repr, DecidableEq

/-- `Array.from({length: totalPages}, (_, i) => i + 1)` — the page numbers
`1..totalPages`. -/
def pageNrList (totalPages : Nat) : List Nat :=
  (List.range totalPages).map (fun i => i + 1)

/-- The REST progress ticker line
`` `Fetching issues/pull requests page ${page}/${totalPages}\r` ``. -/
def restProgressLine (page totalPages : Nat) : String :=
  "Fetching issues/pull requests page " ++ toString page ++ "/"
    ++ toString totalPages ++ "\r"

/-- Everything observable about one run of the REST fetcher: the returned
titles, the `console.error` lines, the dispatched page requests and the
progress-ticker writes. -/
structure RestFetchResult where
  itemTitles : List String
  errors : List String
  requests : List PageRequest
  progress : List String
  deriving Repr, DecidableEq

/-- One step of the `responses.forEach` loop: a fulfilled response pushes
its mapped title lines, a rejected one logs `console.error('Error:', reason)`. -/
def settledStep (acc : List String × List String)
    (response : SettledResult (List Issue)) : List String × List String :=
  match response with
  | .fulfilled data => (acc.1 ++ data.map issueLine, acc.2)
  | .rejected reason => (acc.1, acc.2 ++ ["Error: " ++ reason])

/-- The title lines a single settled response contributes. -/
def linesOfSettled : SettledResult (List Issue) → List String
  | .fulfilled data => data.map issueLine
  | .rejected _ => []

/-- The error-log lines a single settled response contributes. -/
def errorsOfSettled : SettledResult (List Issue) → List String
  | .fulfilled _ => []
  | .rejected reason => ["Error: " ++ reason]

/-- `response.status === 'fulfilled'`. -/
def isFulfilled : SettledResult (List Issue) → Bool
  | .fulfilled _ => true
  | .rejected _ => false

/-- `fetchIssueTitles(owner, repo, totalIssues)` /
`RESTTitleFetcher.fetch(limit)`.  The provider is modelled as the map
`pages` from page number to that page request's settled outcome (one
request is issued per page number, so the outcome is a function of the
page number). -/
def fetchIssueTitles (pages : Nat → SettledResult (List Issue))
    (totalIssues : Nat) : RestFetchResult :=
  let totalPages := mathCeilDiv totalIssues issuesPerPage
  let pageNrs := pageNrList totalPages
  let responses := pageNrs.map pages
  let collected := responses.foldl settledStep ([], [])
  { itemTitles := collected.1
    errors := collected.2
    requests := pageNrs.map (fun p => { page := p, per_page := issuesPerPage })
    progress := pageNrs.map (fun p => restProgressLine p totalPages) }

/-- `pageInfo { endCursor hasNextPage }` of a GraphQL response. -/
structure PageInfo where
  endCursor : Option String
  hasNextPage : Bool
  deriving Repr, DecidableEq

/-- One GraphQL response page: `edges` (each edge holding a `node` with
`number` and `title`) plus the continuation metadata. -/
structure GraphQLItemPage where
  edges : List Issue
  pageInfo : PageInfo
  deriving Repr, DecidableEq

/-- The GraphQL progress ticker line
`` `Fetching ${itemType} page ${page}/${totalPages}\r` ``. -/
def gqlProgressLine (itemType : String) (page totalPages : Nat) : String :=
  "Fetching " ++ itemType ++ " page " ++ toString page ++ "/"
    ++ toString totalPages ++ "\r"

/-- The `while (hasNextPage)` loop of `fetchItemTitles`.  Each iteration
writes the progress line, awaits the next scripted response (an exception
from `graphql(...)` is `Except.error` and, being unwrapped, ends the
function), appends the page title lines and continues while the
response reports `hasNextPage` (the `if (hasNextPage)` guard inside the
loop body is always true at that point and is therefore not re-modelled).
`none` means the finite response script ran out while the loop would
request another page. -/
def fetchItemTitlesGo (itemType : String) (totalPages : Nat)
    (itemTitles progress : List String) (page : Nat) :
    List (Except String GraphQLItemPage) →
      Option (List String × Except String (List String))
  | [] => none
  | Except.error e :: _rest =>
      some (progress ++ [gqlProgressLine itemType page totalPages],
        Except.error e)
  | Except.ok resp :: rest =>
      if resp.pageInfo.hasNextPage then
        fetchItemTitlesGo itemType totalPages
          (itemTitles ++ resp.edges.map issueLine)
          (progress ++ [gqlProgressLine itemType page totalPages])
          (page + 1) rest
      else
        some (progress ++ [gqlProgressLine itemType page totalPages],
          Except.ok (itemTitles ++ resp.edges.map issueLine))

/-- `fetchItemTitles(owner, repo, itemType, totalCount)` /
`GraphQLTitleFetcher.fetch(limit, itemType)`.  Returns the progress lines
written (one per request issued) and either the accumulated title lines
or the propagated error. -/
def fetchItemTitles (responses : List (Except String GraphQLItemPage))
    (itemType : String) (totalCount : Nat) :
    Option (List String × Except String (List String)) :=
  fetchItemTitlesGo itemType (mathCeilDiv totalCount perPage) [] [] 1 responses

/-- `issues { totalCount }` etc. of the aggregate stats response. -/
structure TotalCount where
  totalCount : Nat
  deriving Repr, DecidableEq

/-- The `repository` object of the aggregate count query response. -/
structure StatsRepository where
  issues : TotalCount
  pullRequests : TotalCount
  discussions : TotalCount
  deriving Repr, DecidableEq

/-- The counts object built by `fetchRepoStats` / `ItemCountFetcher.fetch`. -/
structure RepoCounts where
  issues : Nat
  pullRequests : Nat
  discussions : Nat
  deriving Repr, DecidableEq

/-- `fetchRepoStats(owner, repo)` / `ItemCountFetcher.fetch()`: on a
successful response builds the counts object; on an exception logs
`console.error("Error fetching repository stats:", error)` and falls off
the end of the function, returning JavaScript `undefined` (`none`).
The second component is the list of `console.error` lines. -/
def fetchRepoStats (response : Except String StatsRepository) :
    Option RepoCounts × List String :=
  match response with
  | .ok r =>
      (some { issues := r.issues.totalCount
              pullRequests := r.pullRequests.totalCount
              discussions := r.discussions.totalCount }, [])
  | .error e => (none, ["Error fetching repository stats: " ++ e])

/-- An uncaught JavaScript error terminating the run: either a `TypeError`
(field access / arithmetic on `undefined`) or a propagated rejection. -/
inductive RunError where
  | typeError (msg : String)
  | rejection (msg : String)
  deriving Repr, DecidableEq

/-- The observable effects of a run, in order: network requests, the
output-file operations (`fs.rmSync`, `fs.appendFileSync`) and console
output.  The stdout progress ticker is modelled separately, inside the
fetcher results. -/
inductive RunEvent where
  | net (desc : String)
  | fileRm
  | fileAppend (s : String)
  | log (msg : String)
  | logError (msg : String)
  deriving Repr, DecidableEq

/-- How the process ends: normal completion, an explicit `process.exit`,
or an uncaught error / unhandled rejection (non-zero exit via the
runtime default). -/
inductive Outcome where
  | success
  | exitCode (code : Nat)
  | uncaught (e : RunError)
  deriving Repr, DecidableEq

/-- The external world of one run: the aggregate count response, the REST
outcome per page number, and the scripted GraphQL discussion responses. -/
structure Env where
  statsResponse : Except String StatsRepository
  restPages : Nat → SettledResult (List Issue)
  discussionResponses : List (Except String GraphQLItemPage)

/-- The `TypeError` raised by `repoStats["issues"] + ...` when
`fetchRepoStats` returned `undefined`. -/
def typeErrorCounts : RunError :=
  RunError.typeError "Cannot read properties of undefined reading issues"

/-- The network events of the sequential discussions fetch, one per
request issued. -/
def discNetEvents (n : Nat) : List RunEvent :=
  (List.range n).map (fun i => RunEvent.net ("graphql discussions page " ++ toString (i + 1)))

/-- The network events of the parallel REST fetch, in dispatch order. -/
def restNetEvents (reqs : List PageRequest) : List RunEvent :=
  reqs.map (fun r => RunEvent.net ("rest issues page " ++ toString r.page))

/-- The single aggregate count query request. -/
def statsNetEvent : RunEvent :=
  RunEvent.net "graphql repository stats query"

/-- `fetchTitles(owner, repo, repoStats)` of `fetch-issue-titles.js`.
`for (const itemType in repoStats)` iterates over the keys
`issues, pullRequests, discussions` in insertion order and fetches only at
`"discussions"`, so `titles["discussions"]` is assigned first; when
`repoStats` is `undefined` the loop body never runs (zero iterations) and
the subsequent `repoStats["issues"] + repoStats["pullRequests"]` throws a
`TypeError`.  Afterwards `titles["issues"]` is assigned from the REST
fetch.  Returns the fetch-phase events and either the uncaught error or
the `titles` object as its insertion-ordered key/value list. -/
def fetchTitles (env : Env) (repoStats : Option RepoCounts) :
    Option (List RunEvent × Except RunError (List (String × List String))) :=
  match repoStats with
  | none => some ([], Except.error typeErrorCounts)
  | some stats =>
      match fetchItemTitles env.discussionResponses "discussions" stats.discussions with
      | none => none
      | some (_progress, Except.error e) =>
          some (discNetEvents (_progress.length), Except.error (RunError.rejection e))
      | some (_progress, Except.ok discussionTitles) =>
          let totalIssues := stats.issues + stats.pullRequests
          let rest := fetchIssueTitles env.restPages totalIssues
          some (discNetEvents (_progress.length) ++ restNetEvents rest.requests
              ++ rest.errors.map RunEvent.logError,
            Except.ok [("discussions", discussionTitles), ("issues", rest.itemTitles)])

/-- The final summary line
`` `Written ${titles.issues.length} issue/pull request and ${titles.discussions.length} discussion titles to ${outputFile}` ``. -/
def summaryLine (issueCount discussionCount : Nat) (outputFile : String) : String :=
  "Written " ++ toString issueCount ++ " issue/pull request and "
    ++ toString discussionCount ++ " discussion titles to " ++ outputFile

/-- The top level of `fetch-issue-titles.js` after argument parsing:
`fetchRepoStats`, then `fetchTitles`, then `fs.rmSync(outputFile, {force: true})`,
then one `fs.appendFileSync(outputFile, itemTitle + "\n")` per title in
`Object.entries(titles)` order, then the summary `console.log`.  An
uncaught error anywhere in the fetch phase ends the process before any
file operation. -/
def runScript (outputFile : String) (env : Env) :
    Option (List RunEvent × Outcome) :=
  let probe := fetchRepoStats env.statsResponse
  let trace0 : List RunEvent := statsNetEvent :: probe.2.map RunEvent.logError
  match fetchTitles env probe.1 with
  | none => none
  | some (fetchEvents, Except.error e) =>
      some (trace0 ++ fetchEvents, Outcome.uncaught e)
  | some (fetchEvents, Except.ok titles) =>
      let writes := titles.flatMap
        (fun kv => kv.2.map (fun t => RunEvent.fileAppend (t ++ "\n")))
      let issuesLen := ((List.lookup "issues" titles).getD []).length
      let discussionsLen := ((List.lookup "discussions" titles).getD []).length
      some (trace0 ++ fetchEvents ++ [RunEvent.fileRm] ++ writes
          ++ [RunEvent.log (summaryLine issuesLen discussionsLen outputFile)],
        Outcome.success)

/-- `'Usage: node ' + process.argv[1] + ' <user-or-organisation> <repo> <personal-access-token-file> <output-file>'`. -/
def usageMessage (scriptPath : String) : String :=
  "Usage: node " ++ scriptPath
    ++ " <user-or-organisation> <repo> <personal-access-token-file> <output-file>"

/-- The whole program: `if (process.argv.length < 6) { console.log(usage); process.exit(1); }`,
otherwise run the script with `outputFile = process.argv[5]`.  `argv`
includes the runtime and script path entries, exactly as `process.argv`
does; a missing `argv[1]` stringifies as `undefined`. -/
def runProgram (argv : List String) (env : Env) :
    Option (List RunEvent × Outcome) :=
  if argv.length < 6 then
    some ([RunEvent.log (usageMessage (argv.getD 1 "undefined"))], Outcome.exitCode 1)
  else
    runScript (argv.getD 5 "") env

/-- The top level of the class-based variants in `src/unnamed/part_000`:
`const titles = [...new RESTTitleFetcher(...).fetch(totalIssues), ...new GraphQLTitleFetcher(...).fetch(counts["discussions"], "discussions")]`
— the REST result sequence first, the discussions sequence second (the
class method bodies are identical to `fetchIssueTitles` and
`fetchItemTitles`). -/
def titlesClassVariant (env : Env) (counts : RepoCounts) :
    Option (Except String (List String)) :=
  let totalIssues := counts.issues + counts.pullRequests
  let rest := fetchIssueTitles env.restPages totalIssues
  match fetchItemTitles env.discussionResponses "discussions" counts.discussions with
  | none => none
  | some (_progress, Except.error e) => some (Except.error e)
  | some (_progress, Except.ok discussionTitles) =>
      some (Except.ok (rest.itemTitles ++ discussionTitles))

/-- Is this trace event a network request? -/
def isNetEvent : RunEvent → Bool
  | .net _ => true
  | _ => false

/-- Is this trace event an operation on the output file? -/
def isFileEvent : RunEvent → Bool
  | .fileRm => true
  | .fileAppend _ => true
  | _ => false

/-- The content a single trace event appends to the output file, if any. -/
def appendContent : RunEvent → Option String
  | .fileAppend s => some s
  | _ => none

/-- The contents appended to the output file, in order. -/
def fileAppends (tr : List RunEvent) : List String :=
  tr.filterMap appendContent

/-- The network requests of a trace, in order. -/
def netEvents (tr : List RunEvent) : List RunEvent :=
  tr.filter isNetEvent

/-- "The output file is deleted and recreated at run start": a deletion
exists and precedes every network request of the trace. -/
def rmPrecedesAllNet (tr : List RunEvent) : Bool :=
  match tr.findIdx? (fun ev => ev == RunEvent.fileRm), tr.findIdx? isNetEvent with
  | some i, some j => decide (i < j)
  | some _, none => true
  | none, _ => false

/-! ### Concrete inputs used by witnesses and counterexamples -/

/-- A sample issue record. -/
def exIssue : Issue := { number := 3, title := "issue A" }

/-- A sample discussion record. -/
def exDisc : Issue := { number := 7, title := "disc B" }

/-- A stats response reporting 1 issue, 0 pull requests, 1 discussion. -/
def exStats : StatsRepository :=
  { issues := ⟨1⟩, pullRequests := ⟨0⟩, discussions := ⟨1⟩ }

/-- A REST provider answering every page with the single sample issue. -/
def exRestPages : Nat → SettledResult (List Issue) :=
  fun _ => .fulfilled [exIssue]

/-- A discussions provider answering one final page with the sample
discussion. -/
def exDiscResponses : List (Except String GraphQLItemPage) :=
  [Except.ok { edges := [exDisc], pageInfo := { endCursor := some "c1", hasNextPage := false } }]

/-- A fully successful environment. -/
def exEnv : Env :=
  { statsResponse := Except.ok exStats
    restPages := exRestPages
    discussionResponses := exDiscResponses }

/-- The trace of the successful run of `exEnv` with output file `out.txt`. -/
def exTrace : List RunEvent :=
  [statsNetEvent,
   RunEvent.net "graphql discussions page 1",
   RunEvent.net "rest issues page 1",
   RunEvent.fileRm,
   RunEvent.fileAppend "7,disc B\n",
   RunEvent.fileAppend "3,issue A\n",
   RunEvent.log "Written 1 issue/pull request and 1 discussion titles to out.txt"]

/-- An environment whose aggregate count query fails. -/
def exEnvFail : Env :=
  { statsResponse := Except.error "neterr"
    restPages := exRestPages
    discussionResponses := [] }

/-- A REST provider where exactly page 2 fails. -/
def exPages3 : Nat → SettledResult (List Issue) :=
  fun p => if p = 2 then .rejected "boom" else .fulfilled [{ number := p, title := "t" }]

/-- A discussion page that reports a further page. -/
def exPageTrue : GraphQLItemPage :=
  { edges := [{ number := 1, title := "d1" }]
    pageInfo := { endCursor := some "a", hasNextPage := true } }

/-- A discussion page that reports no further page. -/
def exPageFalse : GraphQLItemPage :=
  { edges := [{ number := 2, title := "d2" }]
    pageInfo := { endCursor := none, hasNextPage := false } }

/-! ### Helper lemmas -/

theorem foldl_settledStep (rs : List (SettledResult (List Issue)))
    (a b : List String) :
    rs.foldl settledStep (a, b) =
      (a ++ rs.flatMap linesOfSettled, b ++ rs.flatMap errorsOfSettled) := by
  induction rs generalizing a b with
  | nil => simp
  | cons r rs ih =>
    cases r with
    | fulfilled d => simp [settledStep, linesOfSettled, errorsOfSettled, ih]
    | rejected e => simp [settledStep, linesOfSettled, errorsOfSettled, ih]

theorem fetchIssueTitles_itemTitles (pages : Nat → SettledResult (List Issue))
    (n : Nat) :
    (fetchIssueTitles pages n).itemTitles =
      ((pageNrList (mathCeilDiv n issuesPerPage)).map pages).flatMap linesOfSettled := by
  simp [fetchIssueTitles, foldl_settledStep]

theorem fetchIssueTitles_errors (pages : Nat → SettledResult (List Issue))
    (n : Nat) :
    (fetchIssueTitles pages n).errors =
      ((pageNrList (mathCeilDiv n issuesPerPage)).map pages).flatMap errorsOfSettled := by
  simp [fetchIssueTitles, foldl_settledStep]

theorem flatMap_nil_of_forall {α β : Type} (l : List α) (f : α → List β)
    (h : ∀ x ∈ l, f x = []) : l.flatMap f = [] := by
  induction l with
  | nil => rfl
  | cons x l ih =>
    simp [List.flatMap_cons, h x (by simp), ih (fun y hy => h y (by simp [hy]))]

theorem errorsOfSettled_eq_nil (s : SettledResult (List Issue))
    (h : isFulfilled s = true) : errorsOfSettled s = [] := by
  cases s with
  | fulfilled d => rfl
  | rejected e => simp [isFulfilled] at h

theorem fetchItemTitlesGo_error (itemType : String) (tp : Nat) (e : String)
    (pre : List GraphQLItemPage) (rest : List (Except String GraphQLItemPage)) :
    ∀ acc prog page, (∀ pg ∈ pre, pg.pageInfo.hasNextPage = true) →
      ∃ progOut,
        fetchItemTitlesGo itemType tp acc prog page
            (pre.map Except.ok ++ Except.error e :: rest)
          = some (progOut, Except.error e) ∧
        progOut.length = prog.length + (pre.length + 1) := by
  induction pre with
  | nil =>
    intro acc prog page _
    exact ⟨prog ++ [gqlProgressLine itemType page tp],
      by simp [fetchItemTitlesGo], by simp⟩
  | cons pg pre ih =>
    intro acc prog page h
    have hpg : pg.pageInfo.hasNextPage = true := h pg (by simp)
    obtain ⟨po, hpo, hlen⟩ :=
      ih (acc ++ pg.edges.map issueLine)
        (prog ++ [gqlProgressLine itemType page tp]) (page + 1)
        (fun x hx => h x (by simp [hx]))
    refine ⟨po, ?_, ?_⟩
    · simpa [fetchItemTitlesGo, hpg] using hpo
    · simp at hlen
      simp [hlen]
      omega

theorem fetchItemTitlesGo_done (itemType : String) (tp : Nat)
    (pre : List GraphQLItemPage) (last : GraphQLItemPage)
    (rest : List (Except String GraphQLItemPage)) :
    ∀ acc prog page, (∀ pg ∈ pre, pg.pageInfo.hasNextPage = true) →
      last.pageInfo.hasNextPage = false →
      ∃ progOut,
        fetchItemTitlesGo itemType tp acc prog page
            (pre.map Except.ok ++ Except.ok last :: rest)
          = some (progOut,
              Except.ok (acc ++ (pre ++ [last]).flatMap (fun pg => pg.edges.map issueLine))) ∧
        progOut.length = prog.length + (pre.length + 1) := by
  induction pre with
  | nil =>
    intro acc prog page _ hlast
    exact ⟨prog ++ [gqlProgressLine itemType page tp],
      by simp [fetchItemTitlesGo, hlast], by simp⟩
  | cons pg pre ih =>
    intro acc prog page h hlast
    have hpg : pg.pageInfo.hasNextPage = true := h pg (by simp)
    obtain ⟨po, hpo, hlen⟩ :=
      ih (acc ++ pg.edges.map issueLine)
        (prog ++ [gqlProgressLine itemType page tp]) (page + 1)
        (fun x hx => h x (by simp [hx])) hlast
    refine ⟨po, ?_, ?_⟩
    · rw [show ((pg :: pre).map Except.ok ++ Except.ok last :: rest)
          = Except.ok pg :: (pre.map Except.ok ++ Except.ok last :: rest) by simp]
      rw [show acc ++ ((pg :: pre) ++ [last]).flatMap (fun pg => pg.edges.map issueLine)
          = (acc ++ pg.edges.map issueLine)
            ++ (pre ++ [last]).flatMap (fun pg => pg.edges.map issueLine) by
        simp [List.flatMap_cons, List.append_assoc]]
      simpa [fetchItemTitlesGo, hpg] using hpo
    · simp at hlen
      simp [hlen]
      omega

theorem fetchItemTitlesGo_snd (itemType : String)
    (responses : List (Except String GraphQLItemPage)) :
    ∀ acc prog1 prog2 page1 page2 tp1 tp2,
      (fetchItemTitlesGo itemType tp1 acc prog1 page1 responses).map (fun x => x.2)
        = (fetchItemTitlesGo itemType tp2 acc prog2 page2 responses).map (fun x => x.2) := by
  induction responses with
  | nil => intros; rfl
  | cons r rest ih =>
    intro acc prog1 prog2 page1 page2 tp1 tp2
    cases r with
    | error e => simp [fetchItemTitlesGo]
    | ok resp =>
      cases hn : resp.pageInfo.hasNextPage with
      | true =>
        simp only [fetchItemTitlesGo, hn, if_pos]
        exact ih (acc ++ resp.edges.map issueLine) _ _ _ _ _ _
      | false => simp [fetchItemTitlesGo, hn]

theorem lookup_titles_issues (d i : List String) :
    ((List.lookup "issues" [("discussions", d), ("issues", i)]).getD []) = i := by
  rfl

theorem lookup_titles_discussions (d i : List String) :
    ((List.lookup "discussions" [("discussions", d), ("issues", i)]).getD []) = d := by
  rfl

theorem runScript_success (outputFile : String) (env : Env) (stats : RepoCounts)
    (progress discussionTitles : List String)
    (hs : (fetchRepoStats env.statsResponse).1 = some stats)
    (hd : fetchItemTitles env.discussionResponses "discussions" stats.discussions
        = some (progress, Except.ok discussionTitles)) :
    runScript outputFile env = some (
      (statsNetEvent :: (fetchRepoStats env.statsResponse).2.map RunEvent.logError)
        ++ (discNetEvents progress.length
            ++ restNetEvents (fetchIssueTitles env.restPages (stats.issues + stats.pullRequests)).requests
            ++ (fetchIssueTitles env.restPages (stats.issues + stats.pullRequests)).errors.map RunEvent.logError)
        ++ [RunEvent.fileRm]
        ++ (discussionTitles
            ++ (fetchIssueTitles env.restPages (stats.issues + stats.pullRequests)).itemTitles).map
              (fun t => RunEvent.fileAppend (t ++ "\n"))
        ++ [RunEvent.log (summaryLine
              (fetchIssueTitles env.restPages (stats.issues + stats.pullRequests)).itemTitles.length
              discussionTitles.length outputFile)],
      Outcome.success) := by
  simp only [runScript, fetchTitles, hs, hd]
  simp [lookup_titles_issues, lookup_titles_discussions, List.flatMap_cons,
    List.map_append, List.append_assoc]

theorem discNetEvents_no_file (n : Nat) :
    (discNetEvents n).all (fun ev => !(isFileEvent ev)) = true := by
  simp [discNetEvents, isFileEvent]

theorem restNetEvents_no_file (reqs : List PageRequest) :
    (restNetEvents reqs).all (fun ev => !(isFileEvent ev)) = true := by
  simp [restNetEvents, isFileEvent]

theorem logErrors_no_file (msgs : List String) :
    (msgs.map RunEvent.logError).all (fun ev => !(isFileEvent ev)) = true := by
  simp [isFileEvent]

theorem fetchTitles_error_events (env : Env) (rs : Option RepoCounts)
    (ev : List RunEvent) (e : RunError)
    (h : fetchTitles env rs = some (ev, Except.error e)) :
    ev.all (fun x => !(isFileEvent x)) = true := by
  cases rs with
  | none =>
    simp [fetchTitles] at h
    simp [h.1]
  | some stats =>
    simp only [fetchTitles] at h
    cases hft : fetchItemTitles env.discussionResponses "discussions" stats.discussions with
    | none => rw [hft] at h; simp at h
    | some pr =>
      obtain ⟨progress, res⟩ := pr
      cases res with
      | error e2 =>
        rw [hft] at h
        simp at h
        rw [← h.1]
        exact discNetEvents_no_file progress.length
      | ok d =>
        rw [hft] at h
        simp at h

theorem runScript_no_exit (outputFile : String) (env : Env)
    (tr : List RunEvent) (o : Outcome)
    (h : runScript outputFile env = some (tr, o)) :
    o = Outcome.success ∨ ∃ e, o = Outcome.uncaught e := by
  simp only [runScript] at h
  cases hft : fetchTitles env (fetchRepoStats env.statsResponse).1 with
  | none => rw [hft] at h; simp at h
  | some pr =>
    obtain ⟨fetchEvents, res⟩ := pr
    cases res with
    | error e =>
      rw [hft] at h
      simp at h
      exact Or.inr ⟨e, h.2.symm⟩
    | ok titles =>
      rw [hft] at h
      simp at h
      exact Or.inl h.2.symm

/-! ### Claim theorems -/

/-- C6: for every `totalItemCount ≥ 0`, `fetchIssueTitles` (PagedListFetcher)
dispatches exactly `ceil(totalItemCount / pageSize)` page requests, with page
numbers `1..totalPages` and `per_page = 100`; the stated count is the exact
ceiling of `totalItemCount / 100`; and for `totalItemCount = 0` it dispatches
zero requests and returns an empty sequence. -/
theorem c6_paged_dispatch_count (pages : Nat → SettledResult (List Issue)) (n : Nat) :
    (fetchIssueTitles pages n).requests
        = (pageNrList (mathCeilDiv n issuesPerPage)).map (fun p => { page := p, per_page := 100 }) ∧
    (fetchIssueTitles pages n).requests.length = mathCeilDiv n issuesPerPage ∧
    (n ≤ issuesPerPage * mathCeilDiv n issuesPerPage ∧
      issuesPerPage * mathCeilDiv n issuesPerPage < n + issuesPerPage) ∧
    (n = 0 → (fetchIssueTitles pages n).requests = [] ∧
      (fetchIssueTitles pages n).itemTitles = []) := by
  refine ⟨rfl, ?_, ?_, ?_⟩
  · simp [fetchIssueTitles, pageNrList]
  · simp only [mathCeilDiv, issuesPerPage]
    omega
  · rintro rfl
    exact ⟨rfl, rfl⟩

/-- Witness for C6 at `totalItemCount = 0`: zero requests, empty result. -/
theorem c6_paged_dispatch_count_witness :
    (fetchIssueTitles exPages3 0).requests = [] ∧
    (fetchIssueTitles exPages3 0).itemTitles = [] :=
  (c6_paged_dispatch_count exPages3 0).2.2.2 rfl

/-- C3: if exactly one page of the REST fetch fails (page `p`, with every
other dispatched page fulfilled), the returned sequence is exactly the
records of the succeeding pages in page order, and the failure is reported
exactly once on the error channel; the fetch itself still returns (no
abort). -/
theorem c3_single_page_failure (pages : Nat → SettledResult (List Issue))
    (n : Nat) (pre post : List Nat) (p : Nat) (r : String)
    (h1 : pageNrList (mathCeilDiv n issuesPerPage) = pre ++ p :: post)
    (h2 : pages p = SettledResult.rejected r)
    (h3 : ∀ q ∈ pre ++ post, isFulfilled (pages q) = true) :
    (fetchIssueTitles pages n).itemTitles
        = (pre ++ post).flatMap (fun q => linesOfSettled (pages q)) ∧
    (fetchIssueTitles pages n).errors = ["Error: " ++ r] := by
  have hT := fetchIssueTitles_itemTitles pages n
  have hE := fetchIssueTitles_errors pages n
  rw [h1] at hT hE
  constructor
  · rw [hT, List.flatMap_map]
    simp [List.flatMap_append, h2, linesOfSettled]
  · rw [hE, List.flatMap_map]
    have hpre : pre.flatMap (fun q => errorsOfSettled (pages q)) = [] := by
      apply flatMap_nil_of_forall
      intro q hq
      exact errorsOfSettled_eq_nil _ (h3 q (by simp [hq]))
    have hpost : post.flatMap (fun q => errorsOfSettled (pages q)) = [] := by
      apply flatMap_nil_of_forall
      intro q hq
      exact errorsOfSettled_eq_nil _ (h3 q (by simp [hq]))
    rw [List.flatMap_append, List.flatMap_cons, hpre, hpost, h2]
    simp [errorsOfSettled]

/-- Witness for C3: with `totalItemCount = 250` (pages 1,2,3) and page 2
rejected, the result holds the records of pages 1 and 3 and one error. -/
theorem c3_single_page_failure_witness :
    (fetchIssueTitles exPages3 250).itemTitles = ["1,t", "3,t"] ∧
    (fetchIssueTitles exPages3 250).errors = ["Error: boom"] := by
  have h := c3_single_page_failure exPages3 250 [1] [3] 2 "boom"
    (by decide) (by decide) (by decide)
  exact ⟨h.1.trans (by decide), h.2.trans (by decide)⟩

/-- C4: in the cursor fetcher, a single failed page request — after any
number of succeeding pages that still reported `hasNextPage` — aborts the
entire fetch: the error is propagated to the caller and the result carries
zero records (the titles accumulated from earlier pages are discarded with
the throw).  The failing request is the `(pre.length + 1)`-th and last one
issued. -/
theorem c4_cursor_failure_aborts (itemType : String) (totalCount : Nat)
    (pre : List GraphQLItemPage) (rest : List (Except String GraphQLItemPage))
    (e : String) (h : ∀ pg ∈ pre, pg.pageInfo.hasNextPage = true) :
    ∃ prog,
      fetchItemTitles (pre.map Except.ok ++ Except.error e :: rest) itemType totalCount
        = some (prog, Except.error e) ∧
      prog.length = pre.length + 1 := by
  obtain ⟨po, hpo, hlen⟩ :=
    fetchItemTitlesGo_error itemType (mathCeilDiv totalCount perPage) e pre rest [] [] 1 h
  exact ⟨po, hpo, by simpa using hlen⟩

/-- Witness for C4: the very first page request fails; the fetch returns
that error and no records. -/
theorem c4_cursor_failure_aborts_witness :
    ∃ prog,
      fetchItemTitles [Except.error "down"] "discussions" 5
        = some (prog, Except.error "down") ∧
      prog.length = 1 := by
  simpa using c4_cursor_failure_aborts "discussions" 5 [] [] "down" (by simp)

/-- C7: the cursor loop terminates exactly when the provider continuation
flag turns false: with `pre` pages reporting `hasNextPage = true` followed
by one page reporting `false`, it issues exactly `pre.length + 1` requests
(one progress write per request), returns precisely the records of those
pages in order, and never touches the remainder of the provider script —
for every `totalCount` estimate, which therefore neither bounds nor extends
the loop. -/
theorem c7_cursor_terminates_on_flag (itemType : String) (totalCount : Nat)
    (pre : List GraphQLItemPage) (last : GraphQLItemPage)
    (rest : List (Except String GraphQLItemPage))
    (hpre : ∀ pg ∈ pre, pg.pageInfo.hasNextPage = true)
    (hlast : last.pageInfo.hasNextPage = false) :
    ∃ prog,
      fetchItemTitles (pre.map Except.ok ++ Except.ok last :: rest) itemType totalCount
        = some (prog,
            Except.ok ((pre ++ [last]).flatMap (fun pg => pg.edges.map issueLine))) ∧
      prog.length = pre.length + 1 := by
  obtain ⟨po, hpo, hlen⟩ :=
    fetchItemTitlesGo_done itemType (mathCeilDiv totalCount perPage) pre last rest [] [] 1 hpre hlast
  refine ⟨po, ?_, by simpa using hlen⟩
  simpa [fetchItemTitles] using hpo

/-- Witness for C7: one continuing page, one final page, junk beyond the
final page, and a wildly wrong `totalCount` estimate — two requests are
issued and exactly those two pages of records are returned. -/
theorem c7_cursor_terminates_on_flag_witness :
    ∃ prog,
      fetchItemTitles [Except.ok exPageTrue, Except.ok exPageFalse, Except.error "junk"]
          "discussions" 9999
        = some (prog, Except.ok ["1,d1", "2,d2"]) ∧
      prog.length = 2 := by
  have h := c7_cursor_terminates_on_flag "discussions" 9999 [exPageTrue] exPageFalse
    [Except.error "junk"] (by decide) (by decide)
  simpa using h

/-- C8: two runs of the cursor fetcher over the same provider responses
that differ only in the `totalCount` argument return identical outcomes
(records and propagated errors alike): `totalCount` influences only the
progress-display page estimate, which is the first component. -/
theorem c8_totalCount_noninterference
    (responses : List (Except String GraphQLItemPage)) (itemType : String)
    (c1 c2 : Nat) :
    (fetchItemTitles responses itemType c1).map (fun x => x.2)
      = (fetchItemTitles responses itemType c2).map (fun x => x.2) :=
  fetchItemTitlesGo_snd itemType responses [] [] [] 1 1
    (mathCeilDiv c1 perPage) (mathCeilDiv c2 perPage)

/-- C2: when the aggregate count query fails, `fetchRepoStats` only logs the
error and returns `undefined` (`none`) — no default counts are synthesized —
and the run proceeds into `fetchTitles`, where
`repoStats["issues"] + repoStats["pullRequests"]` raises a `TypeError`; the
run therefore ends with that uncaught type error rather than aborting
cleanly at the probe. -/
theorem c2_count_probe_failure (outputFile : String) (env : Env) (e : String)
    (h : env.statsResponse = Except.error e) :
    fetchRepoStats env.statsResponse
        = (none, ["Error fetching repository stats: " ++ e]) ∧
    runScript outputFile env
        = some ([statsNetEvent,
            RunEvent.logError ("Error fetching repository stats: " ++ e)],
          Outcome.uncaught typeErrorCounts) := by
  constructor
  · rw [h]
    rfl
  · simp [runScript, fetchRepoStats, fetchTitles, h]

/-- Witness for C2 at a concrete failing probe. -/
theorem c2_count_probe_failure_witness :
    fetchRepoStats exEnvFail.statsResponse
        = (none, ["Error fetching repository stats: neterr"]) ∧
    runScript "out.txt" exEnvFail
        = some ([statsNetEvent,
            RunEvent.logError "Error fetching repository stats: neterr"],
          Outcome.uncaught typeErrorCounts) :=
  c2_count_probe_failure "out.txt" exEnvFail "neterr" rfl

/-- C9: an invocation with fewer than the required positional arguments
(`process.argv.length < 6`) prints the usage message to standard output and
exits with status code 1, with no network request in the trace; an
invocation with all required arguments proceeds into the script and never
raises the usage exit. -/
theorem c9_usage_check (argv : List String) (env : Env) :
    (argv.length < 6 →
      runProgram argv env
          = some ([RunEvent.log (usageMessage (argv.getD 1 "undefined"))],
              Outcome.exitCode 1) ∧
      netEvents [RunEvent.log (usageMessage (argv.getD 1 "undefined"))] = []) ∧
    (6 ≤ argv.length →
      runProgram argv env = runScript (argv.getD 5 "") env ∧
      ∀ tr o, runProgram argv env = some (tr, o) → o ≠ Outcome.exitCode 1) := by
  constructor
  · intro h
    refine ⟨by simp [runProgram, h], by simp [netEvents, isNetEvent]⟩
  · intro h
    have hlt : ¬ argv.length < 6 := by omega
    refine ⟨by simp [runProgram, hlt], ?_⟩
    intro tr o hro
    rw [show runProgram argv env = runScript (argv.getD 5 "") env from by
      simp [runProgram, hlt]] at hro
    rcases runScript_no_exit _ _ _ _ hro with h1 | ⟨e2, h1⟩ <;> subst h1 <;> simp

theorem runScript_exEnv :
    runScript "out.txt" exEnv = some (exTrace, Outcome.success) := by
  rfl

/-- Witness for C9: a two-entry `argv` triggers the usage exit with no
network request; a six-entry `argv` runs to completion without the usage
exit. -/
theorem c9_usage_check_witness :
    (runProgram ["node", "script"] exEnv
        = some ([RunEvent.log (usageMessage "script")], Outcome.exitCode 1) ∧
      netEvents [RunEvent.log (usageMessage "script")] = []) ∧
    Outcome.success ≠ Outcome.exitCode 1 := by
  constructor
  · exact (c9_usage_check ["node", "script"] exEnv).1 (by decide)
  · have h2 := (c9_usage_check ["node", "script", "owner", "repo", "key", "out.txt"] exEnv).2
      (by decide)
    exact h2.2 exTrace Outcome.success (h2.1.trans runScript_exEnv)

/-- C10: if the run aborts during the fetch phase with an uncaught error
(the count probe returned `undefined` and the arithmetic threw, or the
discussions fetch rejected), the whole trace contains no output-file
operation: a pre-existing file at the destination is left completely
unchanged, since deletion and rewriting only happen after every fetch has
completed. -/
theorem c10_abort_leaves_file_untouched (outputFile : String) (env : Env)
    (tr : List RunEvent) (err : RunError)
    (h : runScript outputFile env = some (tr, Outcome.uncaught err)) :
    tr.all (fun ev => !(isFileEvent ev)) = true := by
  simp only [runScript] at h
  cases hft : fetchTitles env (fetchRepoStats env.statsResponse).1 with
  | none => rw [hft] at h; simp at h
  | some pr =>
    obtain ⟨fetchEvents, res⟩ := pr
    cases res with
    | error e =>
      rw [hft] at h
      simp at h
      rw [← h.1]
      have h1 := fetchTitles_error_events env _ fetchEvents e hft
      simp only [List.all_cons, List.all_append, h1,
        logErrors_no_file (fetchRepoStats env.statsResponse).2]
      rfl
    | ok titles =>
      rw [hft] at h
      simp at h

/-- Witness for C10: the failing-probe run crashes with a `TypeError` and
its trace holds no file operation. -/
theorem c10_abort_leaves_file_untouched_witness :
    (([statsNetEvent,
        RunEvent.logError "Error fetching repository stats: neterr"] : List RunEvent).all
      (fun ev => !(isFileEvent ev))) = true :=
  c10_abort_leaves_file_untouched "out.txt" exEnvFail
    [statsNetEvent, RunEvent.logError "Error fetching repository stats: neterr"]
    typeErrorCounts (by rfl)

/-- C1 counterexample: in the `fetch-issue-titles.js` run over `exEnv` both
fetches complete, yet the discussion record is appended to the output file
before the issues/pull-requests record — the final output is not the
issues/PRs block followed by the discussions block. -/
theorem c1_output_order_counterexample :
    runScript "out.txt" exEnv = some (exTrace, Outcome.success) ∧
    fileAppends exTrace = ["7,disc B\n", "3,issue A\n"] ∧
    fileAppends exTrace ≠ ["3,issue A\n", "7,disc B\n"] :=
  ⟨runScript_exEnv, by rfl, by decide⟩

theorem filterMap_some_comp {α β : Type} (l : List α) (f : α → β) :
    l.filterMap (fun a => some (f a)) = l.map f := by
  induction l <;> simp [List.filterMap_cons, *]

theorem fileAppends_append (a b : List RunEvent) :
    fileAppends (a ++ b) = fileAppends a ++ fileAppends b := by
  simp [fileAppends]

theorem fileAppends_discNet (n : Nat) : fileAppends (discNetEvents n) = [] := by
  simp only [fileAppends, discNetEvents, List.filterMap_map]
  simp [Function.comp, appendContent]

theorem fileAppends_restNet (reqs : List PageRequest) :
    fileAppends (restNetEvents reqs) = [] := by
  simp only [fileAppends, restNetEvents, List.filterMap_map]
  simp [Function.comp, appendContent]

theorem fileAppends_logErrors (msgs : List String) :
    fileAppends (msgs.map RunEvent.logError) = [] := by
  simp only [fileAppends, List.filterMap_map]
  simp [Function.comp, appendContent]

theorem fileAppends_writes (ts : List String) :
    fileAppends (ts.map (fun t => RunEvent.fileAppend (t ++ "\n")))
      = ts.map (fun t => t ++ "\n") := by
  simp only [fileAppends, List.filterMap_map]
  simpa [Function.comp, appendContent] using
    filterMap_some_comp ts (fun t => t ++ "\n")

theorem fileAppends_statsNet (l : List RunEvent) :
    fileAppends (statsNetEvent :: l) = fileAppends l := by
  simp [fileAppends, List.filterMap_cons, appendContent, statsNetEvent]

theorem fileAppends_rm (l : List RunEvent) :
    fileAppends (RunEvent.fileRm :: l) = fileAppends l := by
  simp [fileAppends, List.filterMap_cons, appendContent]

theorem fileAppends_log (m : String) (l : List RunEvent) :
    fileAppends (RunEvent.log m :: l) = fileAppends l := by
  simp [fileAppends, List.filterMap_cons, appendContent]

/-- C1 (amended): the class-based variant (`src/unnamed/part_000`)
concatenates the REST result sequence first and the discussions sequence
second, as the claim states; in `fetch-issue-titles.js`, however, the
`titles` object is keyed in insertion order `discussions, issues`, so in
every run of that script in which both fetches complete the discussion
records precede the issues/pull-requests records in the final output. -/
theorem c1_output_order_amended (outputFile : String) (env : Env)
    (stats : RepoCounts) (progress discussionTitles : List String)
    (hs : (fetchRepoStats env.statsResponse).1 = some stats)
    (hd : fetchItemTitles env.discussionResponses "discussions" stats.discussions
        = some (progress, Except.ok discussionTitles)) :
    (∃ tr, runScript outputFile env = some (tr, Outcome.success) ∧
      fileAppends tr = (discussionTitles
          ++ (fetchIssueTitles env.restPages (stats.issues + stats.pullRequests)).itemTitles).map
            (fun t => t ++ "\n")) ∧
    titlesClassVariant env stats
      = some (Except.ok
          ((fetchIssueTitles env.restPages (stats.issues + stats.pullRequests)).itemTitles
            ++ discussionTitles)) := by
  constructor
  · refine ⟨_, runScript_success outputFile env stats progress discussionTitles hs hd, ?_⟩
    simp only [List.cons_append, List.singleton_append, List.append_assoc,
      fileAppends_statsNet, fileAppends_append, fileAppends_discNet,
      fileAppends_restNet, fileAppends_logErrors, fileAppends_writes,
      fileAppends_rm, fileAppends_log]
    simp [fileAppends]
  · simp [titlesClassVariant, hd]

/-- Witness for the amended C1 at the concrete environment `exEnv`. -/
theorem c1_output_order_amended_witness :
    (∃ tr, runScript "out.txt" exEnv = some (tr, Outcome.success) ∧
      fileAppends tr = ["7,disc B\n", "3,issue A\n"]) ∧
    titlesClassVariant exEnv { issues := 1, pullRequests := 0, discussions := 1 }
      = some (Except.ok ["3,issue A", "7,disc B"]) := by
  have h := c1_output_order_amended "out.txt" exEnv
    { issues := 1, pullRequests := 0, discussions := 1 }
    ["Fetching discussions page 1/1\r"] ["7,disc B"] rfl rfl
  obtain ⟨⟨tr, h1, h2⟩, h3⟩ := h
  exact ⟨⟨tr, h1, h2.trans (by rfl)⟩, h3.trans (by rfl)⟩

/-- C5 counterexample: in the successful run over `exEnv` the output-file
deletion happens only after the fetch-phase network requests, so the file
is not "deleted and recreated at run start", and no record is appended
while the fetch is still in progress. -/
theorem c5_output_file_counterexample :
    runScript "out.txt" exEnv = some (exTrace, Outcome.success) ∧
    rmPrecedesAllNet exTrace = false :=
  ⟨runScript_exEnv, by decide⟩

/-- C5 (amended): the output file is deleted only after both fetches have
completed: the trace is a fetch-phase prefix containing no file operation,
then the `fs.rmSync` deletion, then one `fs.appendFileSync` call per record
(the records having been buffered in memory during the fetch, but written
as individual appends rather than one single write), then the summary. -/
theorem c5_output_file_amended (outputFile : String) (env : Env)
    (stats : RepoCounts) (progress discussionTitles : List String)
    (hs : (fetchRepoStats env.statsResponse).1 = some stats)
    (hd : fetchItemTitles env.discussionResponses "discussions" stats.discussions
        = some (progress, Except.ok discussionTitles)) :
    ∃ A, runScript outputFile env = some (
        A ++ [RunEvent.fileRm]
          ++ (discussionTitles
              ++ (fetchIssueTitles env.restPages (stats.issues + stats.pullRequests)).itemTitles).map
                (fun t => RunEvent.fileAppend (t ++ "\n"))
          ++ [RunEvent.log (summaryLine
                (fetchIssueTitles env.restPages (stats.issues + stats.pullRequests)).itemTitles.length
                discussionTitles.length outputFile)],
        Outcome.success) ∧
      A.all (fun ev => !(isFileEvent ev)) = true := by
  refine ⟨(statsNetEvent :: (fetchRepoStats env.statsResponse).2.map RunEvent.logError)
      ++ (discNetEvents progress.length
          ++ restNetEvents (fetchIssueTitles env.restPages (stats.issues + stats.pullRequests)).requests
          ++ (fetchIssueTitles env.restPages (stats.issues + stats.pullRequests)).errors.map RunEvent.logError),
    ?_, ?_⟩
  · have h := runScript_success outputFile env stats progress discussionTitles hs hd
    rw [h]
  · simp only [List.cons_append, List.all_cons, List.all_append,
      discNetEvents_no_file, restNetEvents_no_file, logErrors_no_file]
    rfl

/-- Witness for the amended C5 at the concrete environment `exEnv`. -/
theorem c5_output_file_amended_witness :
    ∃ A, runScript "out.txt" exEnv = some (
        A ++ [RunEvent.fileRm]
          ++ [RunEvent.fileAppend "7,disc B\n", RunEvent.fileAppend "3,issue A\n"]
          ++ [RunEvent.log "Written 1 issue/pull request and 1 discussion titles to out.txt"],
        Outcome.success) ∧
      A.all (fun ev => !(isFileEvent ev)) = true := by
  obtain ⟨A, h1, h2⟩ := c5_output_file_amended "out.txt" exEnv
    { issues := 1, pullRequests := 0, discussions := 1 }
    ["Fetching discussions page 1/1\r"] ["7,disc B"] rfl rfl
  refine ⟨A, ?_, h2⟩
  rw [h1]
  rfl
